import Mathlib

/-!
Verification development for the mca-portfolio extraction pipeline
(scripts/mca_scraper.py and its collaborators).

The Python source is shallowly embedded: pure per-value computations
become Lean functions, the stateful parts (browser session, backend
store, filesystem debug captures) become explicit state passing over
concrete data types, and every fallible Python operation is modelled
with Option/Except.  Python floats on the monetary fields are modelled
as rationals: every literal the scraper can produce is a finite decimal,
exactly representable, and no claim depends on IEEE rounding.
-/

/-! ## Python primitive modelling

String operations are carried out on character lists so that every
definition reduces in the kernel; a Lean String is unpacked once with
toList at each entry point. -/

/-- Value of a list of decimal digit characters, most significant first. -/
def decDigitsVal (l : List Char) : ℕ :=
  l.foldl (fun a c => 10 * a + (c.toNat - 48)) 0

/-- Python str.strip() with no argument: remove leading and trailing
whitespace (the ASCII whitespace classes the scraper can meet). -/
def pyStrip (l : List Char) : List Char :=
  ((l.dropWhile Char.isWhitespace).reverse.dropWhile Char.isWhitespace).reverse

/-- Python str.replace(",", ""): delete every comma. -/
def delCommas (l : List Char) : List Char :=
  l.filter (· ≠ ',')

/-- Sign handling shared by Python numeric literal parsing: an optional
leading plus or minus sign.  Returns (negative, remaining characters). -/
def splitSign : List Char → Bool × List Char
  | '+' :: r => (false, r)
  | '-' :: r => (true, r)
  | r => (false, r)

/-- Parse the optional exponent tail of a Python float literal:
either nothing, or the letter e/E followed by an optionally signed
nonempty digit run that consumes the rest of the input. -/
def pyFloatExp? : List Char → Option ℤ
  | [] => some 0
  | e :: r =>
    if e = 'e' ∨ e = 'E' then
      let (eneg, r') := splitSign r
      let ed := r'.takeWhile Char.isDigit
      if ed ≠ [] ∧ r'.dropWhile Char.isDigit = [] then
        some (if eneg then -(decDigitsVal ed : ℤ) else (decDigitsVal ed : ℤ))
      else none
    else none

/-- Model of the Python builtin float(string) on the decimal-literal
fragment: surrounding whitespace is stripped, then an optional sign,
a digit run with an optional single decimal point, and an optional
exponent must consume the whole string, else ValueError (none).
Digit-group underscores and the inf/nan literals are outside the
monetary-string domain this scraper feeds to float and are rejected. -/
def pyFloat? (s : List Char) : Option ℚ :=
  let cs := pyStrip s
  let (neg, cs1) := splitSign cs
  let ip := cs1.takeWhile Char.isDigit
  let r1 := cs1.dropWhile Char.isDigit
  let (fp, r2) :=
    match r1 with
    | '.' :: r => (r.takeWhile Char.isDigit, r.dropWhile Char.isDigit)
    | r => (([] : List Char), r)
  if ip = [] ∧ fp = [] then none
  else
    match pyFloatExp? r2 with
    | none => none
    | some e =>
      let m : ℤ := (decDigitsVal (ip ++ fp) : ℤ)
      let m : ℤ := if neg then -m else m
      match e with
      | Int.ofNat k => some (mkRat (m * ((10 ^ k : ℕ) : ℤ)) (10 ^ fp.length))
      | Int.negSucc k => some (mkRat m (10 ^ (fp.length + (k + 1))))

/-- Model of the Python builtin int(string): strip, optional sign,
then a nonempty digit run consuming the rest, else ValueError (none). -/
def pyInt? (s : List Char) : Option ℤ :=
  let cs := pyStrip s
  let (neg, cs1) := splitSign cs
  if cs1 ≠ [] ∧ cs1.all Char.isDigit then
    some (if neg then -(decDigitsVal cs1 : ℤ) else (decDigitsVal cs1 : ℤ))
  else none

/-! ## Monetary field parsing (extract_deals_data)

The Purchase Price and Principal Amount fields run
float(text.strip().replace(",", "")) with ValueError caught and the
field default 0.0 kept.  The Receivables Purchased Amount and the
balance fields first truncate at the first opening parenthesis:
float(text.strip().split("(")[0].replace(",", "")). -/

/-- Monetary parse for the plain fields (Purchase Price, Principal
Amount): strip, delete commas, float; on failure keep 0.0. -/
def parseMoneyPlain (t : String) : ℚ :=
  (pyFloat? (delCommas (pyStrip t.toList))).getD 0

/-- Monetary parse for the parenthetical-truncating fields (Receivables
Purchased Amount, Current Balance, RTR Balance): strip, cut at the
first opening parenthesis, delete commas, float; on failure keep 0.0. -/
def parseMoneyParen (t : String) : ℚ :=
  (pyFloat? (delCommas ((pyStrip t.toList).takeWhile (· ≠ '(')))).getD 0

/-! ## The Deal record (dataclass Deal)

Fields follow scripts/mca_scraper.py lines 45-72.  A field that the
extractor can leave holding Python None (the direct next_sibling
assignments) is an Option; datetimes are a concrete calendar-time
structure.  Monetary floats are rationals. -/

/-- Calendar datetime as produced by datetime.strptime in the scraper. -/
structure PyDateTime where
  year : ℕ
  month : ℕ
  day : ℕ
  hour : ℕ
  minute : ℕ
  second : ℕ
deriving DecidableEq, Repr

/-- Two-digit zero-padded rendering used by datetime.isoformat. -/
def pad2 (n : ℕ) : String :=
  if n < 10 then "0" ++ toString n else toString n

/-- Four-digit zero-padded year rendering used by datetime.isoformat. -/
def pad4 (n : ℕ) : String :=
  if n < 10 then "000" ++ toString n
  else if n < 100 then "00" ++ toString n
  else if n < 1000 then "0" ++ toString n
  else toString n

/-- datetime.isoformat() for the second-precision datetimes the scraper
builds (no microseconds, no timezone in the strptime results). -/
def PyDateTime.isoformat (t : PyDateTime) : String :=
  pad4 t.year ++ "-" ++ pad2 t.month ++ "-" ++ pad2 t.day ++ "T" ++
    pad2 t.hour ++ ":" ++ pad2 t.minute ++ ":" ++ pad2 t.second

/-- Deal dataclass.  The first five fields have no dataclass default;
the rest carry the defaults from the source. -/
structure Deal where
  deal_id : String
  dba : String
  owner : Option String
  deal_type : String
  funding_type : String
  funding_date : Option PyDateTime := none
  purchase_price : ℚ := 0
  principal_amount : ℚ := 0
  receivables_purchased_amount : ℚ := 0
  current_balance : ℚ := 0
  status : String := ""
  next_payment_due : Option PyDateTime := none
  performance_ratio : String := ""
  mca_app_date : Option PyDateTime := none
  nature_of_business : String := ""
  monthly_cc_processing : ℚ := 0
  monthly_bank_deposits : ℚ := 0
  avg_daily_bank_bal : ℚ := 0
  sales_rep : String := ""
  sos_status : String := ""
  google_score : String := ""
  twitter_score : String := ""
  years_in_business : ℤ := 0
  extracted_at : Option PyDateTime := none
  last_updated : Option PyDateTime := none
deriving DecidableEq, Repr

/-- validate_deal_data (lines 624-630): reject when deal_id or dba is
falsy (the empty string), or when neither principal-amount field is
positive. -/
def validate_deal_data (d : Deal) : Bool :=
  if d.deal_id = "" ∨ d.dba = "" then false
  else if d.purchase_price ≤ 0 ∧ d.principal_amount ≤ 0 then false
  else true

/-! ## datetime.strptime models

CPython strptime compiles the format to a regex: %m and %d match one
or two digits within range, %Y exactly four digits, %H at most 23,
%M and %S at most 59; the whole string must be consumed, and the
datetime constructor then validates the calendar date. -/

/-- Gregorian leap-year rule used by the datetime constructor. -/
def isLeap (y : ℕ) : Bool :=
  (y % 4 = 0 ∧ y % 100 ≠ 0) ∨ y % 400 = 0

/-- Number of days of month m in year y. -/
def monthLen (y m : ℕ) : ℕ :=
  if m = 2 then (if isLeap y then 29 else 28)
  else if m = 4 ∨ m = 6 ∨ m = 9 ∨ m = 11 then 30 else 31

/-- Split a character list at every occurrence of one separator
character, keeping empty segments, as Python str.split(sep) does. -/
def splitOnCharAux (c : Char) : List Char → List Char → List (List Char)
  | [], acc => [acc.reverse]
  | x :: xs, acc =>
    if x = c then acc.reverse :: splitOnCharAux c xs []
    else splitOnCharAux c xs (x :: acc)

/-- Python str.split on a single-character separator. -/
def splitOnChar (c : Char) (l : List Char) : List (List Char) :=
  splitOnCharAux c l []

/-- datetime.strptime(s, m/d/Y format): month and day are one or two
digits in range, the year exactly four digits and at least 1, and the
day must exist in the month. -/
def strptimeMDY? (s : String) : Option PyDateTime :=
  match splitOnChar '/' s.toList with
  | [mp, dp, yp] =>
    if mp ≠ [] ∧ mp.length ≤ 2 ∧ mp.all Char.isDigit ∧
       dp ≠ [] ∧ dp.length ≤ 2 ∧ dp.all Char.isDigit ∧
       yp.length = 4 ∧ yp.all Char.isDigit then
      let m := decDigitsVal mp
      let d := decDigitsVal dp
      let y := decDigitsVal yp
      if 1 ≤ m ∧ m ≤ 12 ∧ 1 ≤ d ∧ d ≤ monthLen y m ∧ 1 ≤ y then
        some ⟨y, m, d, 0, 0, 0⟩
      else none
    else none
  | _ => none

/-- datetime.strptime(s, Y-m-d H:M:S format). -/
def strptimeYMDHMS? (s : String) : Option PyDateTime :=
  match splitOnChar ' ' s.toList with
  | [datePart, timePart] =>
    match splitOnChar '-' datePart, splitOnChar ':' timePart with
    | [yp, mp, dp], [hp, minp, sp] =>
      if yp.length = 4 ∧ yp.all Char.isDigit ∧
         mp ≠ [] ∧ mp.length ≤ 2 ∧ mp.all Char.isDigit ∧
         dp ≠ [] ∧ dp.length ≤ 2 ∧ dp.all Char.isDigit ∧
         hp ≠ [] ∧ hp.length ≤ 2 ∧ hp.all Char.isDigit ∧
         minp ≠ [] ∧ minp.length ≤ 2 ∧ minp.all Char.isDigit ∧
         sp ≠ [] ∧ sp.length ≤ 2 ∧ sp.all Char.isDigit then
      let y := decDigitsVal yp
      let m := decDigitsVal mp
      let d := decDigitsVal dp
      let h := decDigitsVal hp
      let mi := decDigitsVal minp
      let sec := decDigitsVal sp
      if 1 ≤ m ∧ m ≤ 12 ∧ 1 ≤ d ∧ d ≤ monthLen y m ∧ 1 ≤ y ∧
         h ≤ 23 ∧ mi ≤ 59 ∧ sec ≤ 59 then
        some ⟨y, m, d, h, mi, sec⟩
      else none
      else none
    | _, _ => none
  | _ => none

/-! ## HTML card embedding (extract_deals_data, lines 377-614)

The BeautifulSoup accessors are embedded as the abstract data they
return.  A bold label element carries its text and its next_sibling,
which is either absent (None), a text node, or a nested tag; calling
strip() on a tag raises AttributeError, which the per-card
try/except turns into skipping the whole card.  Tags are modelled as
truthy. -/

/-- next_sibling of a bold label: a text node or a non-text element. -/
inductive HtmlNode
  | text (s : String)
  | tag
deriving DecidableEq, Repr

/-- Python str.strip() on a Lean String. -/
def strStrip (s : String) : String :=
  ⟨pyStrip s.toList⟩

/-- Does listStartsWith s pat hold, i.e. is pat a prefix of s. -/
def listStartsWith : List Char → List Char → Bool
  | _, [] => true
  | [], _ :: _ => false
  | a :: s, b :: p => a = b && listStartsWith s p

/-- Python substring membership: pat in s. -/
def listContains (pat : List Char) : List Char → Bool
  | [] => pat.isEmpty
  | c :: rest => listStartsWith (c :: rest) pat || listContains pat rest

/-- Python substring membership on Strings: pat in s. -/
def containsSub (s pat : String) : Bool :=
  listContains pat.toList s.toList

/-- Python split on the three-character separator used for the deal
link text: deal_text.split(a space, hash, space). -/
def splitDealTextAux : List Char → List Char → List (List Char)
  | ' ' :: '#' :: ' ' :: rest, acc => acc.reverse :: splitDealTextAux rest []
  | x :: rest, acc => splitDealTextAux rest (x :: acc)
  | [], acc => [acc.reverse]

/-- Split the stripped link text around the separator. -/
def splitDealText (l : List Char) : List (List Char) :=
  splitDealTextAux l []

/-- Right column of a card: the text-info status element and, for every
bold element, its text together with the resolved text of the first
bold element of the sibling col-md-7 column of its enclosing row (None
when any link of that chain is missing). -/
structure RightCol where
  status_text : Option String
  rows : List (String × Option String)
deriving DecidableEq, Repr

/-- One listing card, as the sequence of BeautifulSoup queries the
extractor makes sees it: the customer span (and inside it the link
text), the left column bold labels with their next siblings, and the
right column. -/
structure Card where
  customer : Option (Option String)
  left_col : Option (List (String × Option HtmlNode))
  right_col : Option RightCol
deriving DecidableEq, Repr

/-- First bold label of the left column whose stripped text equals
lbl, returning its next_sibling slot. -/
def findLabel (L : List (String × Option HtmlNode)) (lbl : String) :
    Option (Option HtmlNode) :=
  (L.find? (fun p => strStrip p.1 = lbl)).map Prod.snd

/-- Left-column pattern where the loop variable is reassigned to the
next_sibling itself (DBA, Owner): the outer none is an AttributeError
from strip() on a tag; the inner Option String is the final Python
value, None or a string. -/
def sibAssignField (L : List (String × Option HtmlNode)) (lbl : String) :
    Option (Option String) :=
  match findLabel L lbl with
  | none => some (some "")
  | some none => some none
  | some (some (HtmlNode.text t)) =>
    if t = "" then some (some "") else some (some (strStrip t))
  | some (some HtmlNode.tag) => none

/-- Left-column pattern where the field keeps its empty-string default
unless the sibling is truthy (Funding Type, Performance Ratio). -/
def sibKeepField (L : List (String × Option HtmlNode)) (lbl : String) :
    Option String :=
  match findLabel L lbl with
  | none => some ""
  | some none => some ""
  | some (some (HtmlNode.text t)) =>
    if t = "" then some "" else some (strStrip t)
  | some (some HtmlNode.tag) => none

/-- Left-column date field parsed with the m/d/Y format (Funding
Date); a ValueError from strptime is caught and leaves None. -/
def dateField (L : List (String × Option HtmlNode)) (lbl : String) :
    Option (Option PyDateTime) :=
  match findLabel L lbl with
  | none => some none
  | some none => some none
  | some (some (HtmlNode.text t)) =>
    if t = "" then some none else some (strptimeMDY? (strStrip t))
  | some (some HtmlNode.tag) => none

/-- Next Payment Due Date field: guarded by date_text and
date_text.strip() both truthy before parsing. -/
def nextPaymentField (L : List (String × Option HtmlNode)) :
    Option (Option PyDateTime) :=
  match findLabel L "Next Payment Due Date:" with
  | none => some none
  | some none => some none
  | some (some (HtmlNode.text t)) =>
    if t = "" ∨ strStrip t = "" then some none
    else some (strptimeMDY? (strStrip t))
  | some (some HtmlNode.tag) => none

/-- Plain monetary left-column field (Purchase Price, Principal
Amount): float of the comma-free stripped text, ValueError keeping
the 0.0 default. -/
def moneyPlainField (L : List (String × Option HtmlNode)) (lbl : String) :
    Option ℚ :=
  match findLabel L lbl with
  | none => some 0
  | some none => some 0
  | some (some (HtmlNode.text t)) =>
    if t = "" then some 0 else some (parseMoneyPlain t)
  | some (some HtmlNode.tag) => none

/-- Parenthetical-truncating monetary left-column field (Receivables
Purchased Amount). -/
def moneyParenField (L : List (String × Option HtmlNode)) (lbl : String) :
    Option ℚ :=
  match findLabel L lbl with
  | none => some 0
  | some none => some 0
  | some (some (HtmlNode.text t)) =>
    if t = "" then some 0 else some (parseMoneyParen t)
  | some (some HtmlNode.tag) => none

/-- One step of the current-balance loop: the prior value survives an
absent label, a falsy sibling or a ValueError, and is overwritten by a
successful parse; a tag sibling raises. -/
def balanceStep (L : List (String × Option HtmlNode)) (lbl : String)
    (prior : ℚ) : Option ℚ :=
  match findLabel L lbl with
  | none => some prior
  | some none => some prior
  | some (some (HtmlNode.text t)) =>
    if t = "" then some prior
    else
      match pyFloat? (delCommas ((pyStrip t.toList).takeWhile (· ≠ '('))) with
      | some v => some v
      | none => some prior
  | some (some HtmlNode.tag) => none

/-- Current balance (lines 483-498): try Current Balance, and only if
the running value is not positive, RTR Balance. -/
def currentBalanceField (L : List (String × Option HtmlNode)) : Option ℚ := do
  let v1 ← balanceStep L "Current Balance:" 0
  if 0 < v1 then pure v1 else balanceStep L "RTR Balance:" v1

/-- Status from the right column text-info element; absent links leave
the empty-string default.  get_text(strip=True) is modelled as the
stripped text. -/
def statusOf : Option RightCol → String
  | none => ""
  | some rc =>
    match rc.status_text with
    | none => ""
    | some t => strStrip t

/-- Right-column row lookup by exact stripped bold text. -/
def rowField (rc : Option RightCol) (lbl : String) : Option String :=
  match rc with
  | none => none
  | some r => (r.rows.find? (fun p => strStrip p.1 = lbl)).bind Prod.snd

/-- Right-column row lookup by substring of the bold text (used for
MCA App Date). -/
def rowFieldSub (rc : Option RightCol) (pat : String) : Option String :=
  match rc with
  | none => none
  | some r => (r.rows.find? (fun p => containsSub p.1 pat)).bind Prod.snd

/-- String right-column field (Sales Rep, Nature of Business). -/
def rowStrField (rc : Option RightCol) (lbl : String) : String :=
  match rowField rc lbl with
  | none => ""
  | some raw => strStrip raw

/-- Years in business: int of the stripped text, ValueError keeping 0. -/
def yearsOf (rc : Option RightCol) : ℤ :=
  match rowField rc "Years in business:" with
  | none => 0
  | some raw => (pyInt? (strStrip raw).toList).getD 0

/-- MCA App Date from the right column, Y-m-d H:M:S format. -/
def mcaAppDateOf (rc : Option RightCol) : Option PyDateTime :=
  (rowFieldSub rc "MCA App Date").bind (fun raw => strptimeYMDHMS? (strStrip raw))

/-- Final construction (lines 585-608): the Deal is appended only when
the number part of the id and the dba are both truthy; deal_id is the
type and number joined by an underscore. -/
def buildDeal (now : PyDateTime) (c : Card) (dt dn : String)
    (dbaV ownerV : Option String) (fd : Option PyDateTime) (pp pa rpa cb : ℚ)
    (ft pr : String) (npd : Option PyDateTime) : Option Deal :=
  match dbaV with
  | none => none
  | some dbaS =>
    if dn ≠ "" ∧ dbaS ≠ "" then
      some { deal_id := dt ++ "_" ++ dn
             dba := dbaS
             owner := ownerV
             deal_type := dt
             funding_type := ft
             funding_date := fd
             purchase_price := pp
             principal_amount := pa
             receivables_purchased_amount := rpa
             current_balance := cb
             status := statusOf c.right_col
             next_payment_due := npd
             performance_ratio := pr
             mca_app_date := mcaAppDateOf c.right_col
             nature_of_business := rowStrField c.right_col "Nature of Business:"
             sales_rep := rowStrField c.right_col "Sales Rep:"
             years_in_business := yearsOf c.right_col
             extracted_at := some now
             last_updated := some now }
    else none

/-- Per-card extraction (loop body, lines 377-614).  A returned none is
a skipped card: a continue on a missing link, a link text that does not
split into exactly two parts around the separator, a missing left
column, a falsy guard, or an AttributeError caught by the per-card
try/except.  Field computations follow the source order. -/
def extractCard (now : PyDateTime) (c : Card) : Option Deal := do
  let link ← c.customer
  let linkText ← link
  match splitDealText (strStrip linkText).toList with
  | [p1, p2] =>
    let dt := strStrip ⟨p1⟩
    let dn := strStrip ⟨p2⟩
    let L ← c.left_col
    let dbaV ← sibAssignField L "DBA:"
    let ownerV ← sibAssignField L "Owner:"
    let fd ← dateField L "Funding Date:"
    let pp ← moneyPlainField L "Purchase Price:"
    let pa ← moneyPlainField L "Principal Amount:"
    let rpa ← moneyParenField L "Receivables Purchased Amount:"
    let cb ← currentBalanceField L
    let ft ← sibKeepField L "Funding Type:"
    let pr ← sibKeepField L "Performance Ratio:"
    let npd ← nextPaymentField L
    buildDeal now c dt dn dbaV ownerV fd pp pa rpa cb ft pr npd
  | _ => none

/-- Whole-page extraction: the deals list accumulates exactly the
cards whose extraction succeeds, in order. -/
def extractDeals (now : PyDateTime) (cards : List Card) : List Deal :=
  cards.filterMap (extractCard now)

/-! ## Extraction invariants (claim C10) -/

/-- A bind whose continuation is constantly none is none. -/
theorem obindNone {α β : Type} (o : Option α) (f : α → Option β)
    (h : ∀ a, f a = none) : (o >>= f) = none := by
  cases o <;> simp [h]

/-- Concatenating around an underscore never yields the empty string. -/
theorem append_underscore_ne_empty (t n : String) : t ++ "_" ++ n ≠ "" := by
  intro hemp
  have hlen := congrArg String.length hemp
  simp [String.length_append] at hlen
  exact absurd hlen.1.2 (by decide)

/-- buildDeal only succeeds on a truthy number part and a truthy dba,
and then the deal carries the joined id. -/
theorem buildDeal_eq_some_imp {now : PyDateTime} {c : Card} {dt dn : String}
    {dbaV ownerV : Option String} {fd : Option PyDateTime} {pp pa rpa cb : ℚ}
    {ft pr : String} {npd : Option PyDateTime} {d : Deal}
    (h : buildDeal now c dt dn dbaV ownerV fd pp pa rpa cb ft pr npd = some d) :
    dn ≠ "" ∧ d.dba ≠ "" ∧ d.deal_id = dt ++ "_" ++ dn := by
  cases dbaV with
  | none => simp [buildDeal] at h
  | some s =>
    simp only [buildDeal] at h
    split_ifs at h with hcond
    cases Option.some.inj h
    exact ⟨hcond.1, hcond.2, rfl⟩

/-- A successful card extraction produces a deal whose id joins a type
and a non-empty number with an underscore, and whose dba is non-empty. -/
theorem extractCard_eq_some_imp {now : PyDateTime} {c : Card} {d : Deal}
    (h : extractCard now c = some d) :
    d.dba ≠ "" ∧ ∃ dt dn : String, dn ≠ "" ∧ d.deal_id = dt ++ "_" ++ dn := by
  simp only [extractCard, bind, Option.bind_eq_some] at h
  obtain ⟨link, _, lt, _, h⟩ := h
  split at h
  case h_2 => exact Option.noConfusion h
  case h_1 p1 p2 =>
    simp only [Option.bind_eq_some] at h
    obtain ⟨L, _, dbaV, _, ownerV, _, fd, _, pp, _, pa, _, rpa, _, cb, _,
      ft, _, pr, _, npd, _, h⟩ := h
    obtain ⟨hdn, hdba, hid⟩ := buildDeal_eq_some_imp h
    exact ⟨hdba, _, _, hdn, hid⟩

/-- C10: every deal produced by a page-extraction pass has a non-empty
deal_id of the form type-underscore-number with a non-empty number
part, and a non-empty dba; a card whose identifying link is missing,
whose link text does not split into exactly two parts around the
space-hash-space separator, whose left column is absent, or whose DBA
value is missing or empty yields no deal at all; and a skipped card
never affects extraction of the remaining cards. -/
theorem extracted_deal_invariants :
    (∀ (now : PyDateTime) (cards : List Card) (d : Deal),
        d ∈ extractDeals now cards →
        d.deal_id ≠ "" ∧ d.dba ≠ "" ∧
        ∃ t n : String, n ≠ "" ∧ d.deal_id = t ++ "_" ++ n) ∧
    (∀ (now : PyDateTime) lc rc, extractCard now ⟨none, lc, rc⟩ = none) ∧
    (∀ (now : PyDateTime) lc rc, extractCard now ⟨some none, lc, rc⟩ = none) ∧
    (∀ (now : PyDateTime) (lt : String) lc rc,
        (∀ p1 p2, splitDealText (strStrip lt).toList ≠ [p1, p2]) →
        extractCard now ⟨some (some lt), lc, rc⟩ = none) ∧
    (∀ (now : PyDateTime) (lt : String) rc,
        extractCard now ⟨some (some lt), none, rc⟩ = none) ∧
    (∀ (now : PyDateTime) (lt : String) L rc,
        (sibAssignField L "DBA:" = some none ∨
         sibAssignField L "DBA:" = some (some "")) →
        extractCard now ⟨some (some lt), some L, rc⟩ = none) ∧
    (∀ (now : PyDateTime) c cards, extractCard now c = none →
        extractDeals now (c :: cards) = extractDeals now cards) := by
  refine ⟨?_, ?_, ?_, ?_, ?_, ?_, ?_⟩
  · intro now cards d hd
    obtain ⟨c, _, hc⟩ := List.mem_filterMap.mp hd
    obtain ⟨hdba, dt, dn, hdn, hid⟩ := extractCard_eq_some_imp hc
    refine ⟨?_, hdba, dt, dn, hdn, hid⟩
    rw [hid]
    exact append_underscore_ne_empty dt dn
  · intro now lc rc
    rfl
  · intro now lc rc
    rfl
  · intro now lt lc rc hsplit
    simp only [extractCard, bind, Option.some_bind]
  · intro now lt rc
    simp only [extractCard, bind, Option.some_bind]
    split <;> rfl
  · intro now lt L rc hdba
    simp only [extractCard, bind, Option.some_bind]
    split
    case h_2 => rfl
    case h_1 p1 p2 heq =>
      rcases hdba with h | h <;>
        · rw [h]
          simp only [Option.some_bind]
          refine obindNone _ _ (fun ownerV => ?_)
          refine obindNone _ _ (fun fd => ?_)
          refine obindNone _ _ (fun pp => ?_)
          refine obindNone _ _ (fun pa => ?_)
          refine obindNone _ _ (fun rpa => ?_)
          refine obindNone _ _ (fun cb => ?_)
          refine obindNone _ _ (fun ft => ?_)
          refine obindNone _ _ (fun pr => ?_)
          refine obindNone _ _ (fun npd => ?_)
          simp [buildDeal]
  · intro now c cards hc
    simp [extractDeals, List.filterMap_cons, hc]

/-- Reference timestamp used by the concrete witnesses. -/
def now0 : PyDateTime := ⟨2024, 1, 1, 0, 0, 0⟩

/-- A fully populated listing card, as the extractor sees it. -/
def sampleCard : Card :=
  { customer := some (some "MCA # 19911")
    left_col := some
      [("DBA:", some (HtmlNode.text " Acme LLC ")),
       ("Owner:", some (HtmlNode.text "Jane Roe")),
       ("Funding Date:", some (HtmlNode.text "01/15/2024")),
       ("Purchase Price:", some (HtmlNode.text "400,000.00")),
       ("Funding Type:", some (HtmlNode.text "Daily"))]
    right_col := some
      { status_text := some "Performing"
        rows := [("Sales Rep:", some "Rep A"),
                 ("MCA App Date", some "2024-01-02 10:20:30"),
                 ("Years in business:", some "12")] } }

/-- The deal the extractor produces from sampleCard. -/
def sampleDeal : Deal :=
  { deal_id := "MCA_19911", dba := "Acme LLC", owner := some "Jane Roe",
    deal_type := "MCA", funding_type := "Daily",
    funding_date := some ⟨2024, 1, 15, 0, 0, 0⟩, purchase_price := 400000,
    status := "Performing", mca_app_date := some ⟨2024, 1, 2, 10, 20, 30⟩,
    sales_rep := "Rep A", years_in_business := 12,
    extracted_at := some now0, last_updated := some now0 }

example : extractCard now0 sampleCard = some sampleDeal := by decide

/-- C10 witness: the invariant theorem applied at concrete inputs, with
every hypothesis discharged by evaluation. -/
theorem extracted_deal_invariants_witness :
    (sampleDeal.deal_id ≠ "" ∧ sampleDeal.dba ≠ "" ∧
      ∃ t n : String, n ≠ "" ∧ sampleDeal.deal_id = t ++ "_" ++ n) ∧
    extractCard now0 ⟨some (some "MCA # 1"), some [("DBA:", some (HtmlNode.text " "))], none⟩ = none ∧
    extractCard now0 ⟨some (some "no separator here"), some [], none⟩ = none ∧
    extractDeals now0 [⟨none, none, none⟩, sampleCard] = extractDeals now0 [sampleCard] :=
  ⟨extracted_deal_invariants.1 now0 [sampleCard] sampleDeal (by decide),
   extracted_deal_invariants.2.2.2.2.2.1 now0 "MCA # 1"
     [("DBA:", some (HtmlNode.text " "))] none (Or.inr (by decide)),
   extracted_deal_invariants.2.2.2.1 now0 "no separator here" (some []) none
     (by
       intro p1 p2 h
       have h1 : (splitDealText (strStrip "no separator here").toList).length = 1 := by
         decide
       rw [h] at h1
       simp at h1),
   extracted_deal_invariants.2.2.2.2.2.2 now0 ⟨none, none, none⟩ [sampleCard]
     (by decide)⟩

/-! ## Persistence gateway: rows and upsert (save_to_database, lines 641-691)

save_to_database converts each validated deal into a row dict with
the exact column set of the source and calls the backend upsert with
on_conflict deal_id.  The backend table is modelled from the abstract
persistence interface the scraper consumes (spec section 6, upsert
keyed on a conflict column): an ordered list of rows in which upsert
overwrites every row whose key matches and appends a row with a fresh
key. -/

/-- Row dict built for each deal (lines 644-670); datetimes are sent
as isoformat strings or None. -/
structure DealDict where
  deal_id : String
  dba : String
  owner : Option String
  deal_type : String
  funding_type : String
  funding_date : Option String
  purchase_price : ℚ
  principal_amount : ℚ
  receivables_purchased_amount : ℚ
  current_balance : ℚ
  status : String
  next_payment_due : Option String
  performance_ratio : String
  mca_app_date : Option String
  nature_of_business : String
  monthly_cc_processing : ℚ
  monthly_bank_deposits : ℚ
  avg_daily_bank_bal : ℚ
  sales_rep : String
  sos_status : String
  google_score : String
  twitter_score : String
  years_in_business : ℤ
  extracted_at : String
  last_updated : String
deriving DecidableEq, Repr

/-- Conversion of a Deal to its row dict; now is the database write
instant (datetime.now at lines 668-669). -/
def dealToDict (now : PyDateTime) (d : Deal) : DealDict :=
  { deal_id := d.deal_id
    dba := d.dba
    owner := d.owner
    deal_type := d.deal_type
    funding_type := d.funding_type
    funding_date := d.funding_date.map PyDateTime.isoformat
    purchase_price := d.purchase_price
    principal_amount := d.principal_amount
    receivables_purchased_amount := d.receivables_purchased_amount
    current_balance := d.current_balance
    status := d.status
    next_payment_due := d.next_payment_due.map PyDateTime.isoformat
    performance_ratio := d.performance_ratio
    mca_app_date := d.mca_app_date.map PyDateTime.isoformat
    nature_of_business := d.nature_of_business
    monthly_cc_processing := d.monthly_cc_processing
    monthly_bank_deposits := d.monthly_bank_deposits
    avg_daily_bank_bal := d.avg_daily_bank_bal
    sales_rep := d.sales_rep
    sos_status := d.sos_status
    google_score := d.google_score
    twitter_score := d.twitter_score
    years_in_business := d.years_in_business
    extracted_at := now.isoformat
    last_updated := now.isoformat }

/-- Upsert of one row keyed on the deal_id column: overwrite every
matching row, else append. -/
def upsertRow (store : List DealDict) (r : DealDict) : List DealDict :=
  if store.any (fun x => x.deal_id = r.deal_id) then
    store.map (fun x => if x.deal_id = r.deal_id then r else x)
  else store ++ [r]

/-- Upsert of a record batch, row by row in order. -/
def upsertAll (store : List DealDict) (rs : List DealDict) : List DealDict :=
  rs.foldl upsertRow store

/-- The stored ids, in storage order. -/
def storeIds (store : List DealDict) : List String :=
  store.map DealDict.deal_id

theorem storeIds_upsertRow_mem {s : List DealDict} {r : DealDict}
    (h : r.deal_id ∈ storeIds s) : storeIds (upsertRow s r) = storeIds s := by
  obtain ⟨x, hx, hxid⟩ := List.mem_map.mp h
  unfold upsertRow
  rw [if_pos (List.any_eq_true.mpr ⟨x, hx, decide_eq_true hxid⟩)]
  unfold storeIds
  rw [List.map_map]
  refine List.map_congr_left (fun y hy => ?_)
  by_cases hc : y.deal_id = r.deal_id
  · simp [Function.comp, hc]
  · simp [Function.comp, hc]

theorem storeIds_upsertRow_self (s : List DealDict) (r : DealDict) :
    r.deal_id ∈ storeIds (upsertRow s r) := by
  unfold upsertRow
  split_ifs with h
  · obtain ⟨x, hx, hxid⟩ := List.any_eq_true.mp h
    refine List.mem_map.mpr ⟨r, ?_, rfl⟩
    refine List.mem_map.mpr ⟨x, hx, ?_⟩
    simp [of_decide_eq_true hxid]
  · unfold storeIds
    simp

theorem storeIds_upsertRow_mono {s : List DealDict} {k : String} (r : DealDict)
    (h : k ∈ storeIds s) : k ∈ storeIds (upsertRow s r) := by
  obtain ⟨x, hx, hxid⟩ := List.mem_map.mp h
  by_cases hc : x.deal_id = r.deal_id
  · have hk : k = r.deal_id := by rw [← hxid, hc]
    rw [hk]
    exact storeIds_upsertRow_self s r
  · unfold upsertRow
    split_ifs with hmem
    · unfold storeIds
      exact List.mem_map.mpr ⟨x, List.mem_map.mpr ⟨x, hx, by simp [hc]⟩, hxid⟩
    · unfold storeIds at h ⊢
      rw [List.map_append]
      exact List.mem_append_left _ h

theorem mem_storeIds_upsertAll_mono (k : String) :
    ∀ (rs s : List DealDict), k ∈ storeIds s → k ∈ storeIds (upsertAll s rs) := by
  intro rs
  induction rs with
  | nil => exact fun s h => h
  | cons a tl ih =>
    intro s h
    exact ih (upsertRow s a) (storeIds_upsertRow_mono a h)

theorem mem_storeIds_upsertAll (r : DealDict) :
    ∀ (rs s : List DealDict), r ∈ rs → r.deal_id ∈ storeIds (upsertAll s rs) := by
  intro rs
  induction rs with
  | nil => exact fun s h => absurd h (List.not_mem_nil r)
  | cons a tl ih =>
    intro s h
    rcases List.mem_cons.mp h with rfl | htl
    · exact mem_storeIds_upsertAll_mono r.deal_id tl (upsertRow s r)
        (storeIds_upsertRow_self s r)
    · exact ih (upsertRow s a) htl

theorem storeIds_upsertAll_of_all_mem :
    ∀ (rs s : List DealDict), (∀ r ∈ rs, r.deal_id ∈ storeIds s) →
      storeIds (upsertAll s rs) = storeIds s := by
  intro rs
  induction rs with
  | nil => exact fun s _ => rfl
  | cons a tl ih =>
    intro s h
    have hida := h a (List.mem_cons_self a tl)
    have hrow := storeIds_upsertRow_mem hida
    show storeIds (upsertAll (upsertRow s a) tl) = storeIds s
    rw [ih (upsertRow s a) (fun r hr => by
      rw [hrow]
      exact h r (List.mem_cons_of_mem a hr))]
    exact hrow

/-- Upserting any batch a second time changes neither the id column
nor the row count: every id of the batch is present after the first
pass, so the second pass only overwrites. -/
theorem upsertAll_twice (s : List DealDict) (rs : List DealDict) :
    storeIds (upsertAll (upsertAll s rs) rs) = storeIds (upsertAll s rs) ∧
    (upsertAll (upsertAll s rs) rs).length = (upsertAll s rs).length := by
  have hids : storeIds (upsertAll (upsertAll s rs) rs) = storeIds (upsertAll s rs) :=
    storeIds_upsertAll_of_all_mem rs (upsertAll s rs)
      (fun r hr => mem_storeIds_upsertAll r rs s hr)
  refine ⟨hids, ?_⟩
  have := congrArg List.length hids
  simpa [storeIds] using this

/-- C1: persistence is an idempotent upsert keyed on deal_id.  For the
validated rows of any deal list (and in fact for any row batch),
upserting twice leaves the same stored id column, hence the same set
of ids and the same row count, as upserting once. -/
theorem upsert_idempotent (store : List DealDict) (deals : List Deal)
    (now : PyDateTime) :
    (∀ rows : List DealDict,
        storeIds (upsertAll (upsertAll store rows) rows) =
          storeIds (upsertAll store rows) ∧
        (upsertAll (upsertAll store rows) rows).length =
          (upsertAll store rows).length) ∧
    (storeIds
        (upsertAll
          (upsertAll store ((deals.filter validate_deal_data).map (dealToDict now)))
          ((deals.filter validate_deal_data).map (dealToDict now))) =
      storeIds
        (upsertAll store ((deals.filter validate_deal_data).map (dealToDict now)))) :=
  ⟨fun rows => upsertAll_twice store rows,
   (upsertAll_twice store ((deals.filter validate_deal_data).map (dealToDict now))).1⟩

/-! ## save_to_database control flow (lines 632-721)

The backend calls are modelled by their observable outcome: execute()
either raises, or returns a result whose data is truthy or falsy.  The
function records which calls were attempted with their payload,
whether the local backup was attempted and what payload it produced,
and whether an exception propagates to the caller. -/

/-- Outcome of one backend execute() call. -/
inductive DbResult
  | ok (hasData : Bool)
  | exn
deriving DecidableEq, Repr

/-- The backend behaviour during one save: what upsert does and what
insert does if called. -/
structure Backend where
  upsert : DbResult
  insert : DbResult
deriving DecidableEq, Repr

/-- A backend call with the row batch it was given. -/
inductive DbOp
  | upsertOp (rows : List DealDict)
  | insertOp (rows : List DealDict)
deriving DecidableEq, Repr

/-- Is this op the insert fallback. -/
def DbOp.isInsert : DbOp → Bool
  | DbOp.insertOp _ => true
  | DbOp.upsertOp _ => false

/-- A Python value held by a Deal attribute. -/
inductive PyVal
  | str (s : String)
  | ostr (s : Option String)
  | rat (q : ℚ)
  | int (z : ℤ)
  | odt (d : Option PyDateTime)
deriving DecidableEq, Repr

/-- Python getattr on a Deal: exactly the dataclass fields resolve;
any other name is an AttributeError (none). -/
def Deal.getattr (d : Deal) : String → Option PyVal
  | "deal_id" => some (PyVal.str d.deal_id)
  | "dba" => some (PyVal.str d.dba)
  | "owner" => some (PyVal.ostr d.owner)
  | "deal_type" => some (PyVal.str d.deal_type)
  | "funding_type" => some (PyVal.str d.funding_type)
  | "funding_date" => some (PyVal.odt d.funding_date)
  | "purchase_price" => some (PyVal.rat d.purchase_price)
  | "principal_amount" => some (PyVal.rat d.principal_amount)
  | "receivables_purchased_amount" => some (PyVal.rat d.receivables_purchased_amount)
  | "current_balance" => some (PyVal.rat d.current_balance)
  | "status" => some (PyVal.str d.status)
  | "next_payment_due" => some (PyVal.odt d.next_payment_due)
  | "performance_ratio" => some (PyVal.str d.performance_ratio)
  | "mca_app_date" => some (PyVal.odt d.mca_app_date)
  | "nature_of_business" => some (PyVal.str d.nature_of_business)
  | "monthly_cc_processing" => some (PyVal.rat d.monthly_cc_processing)
  | "monthly_bank_deposits" => some (PyVal.rat d.monthly_bank_deposits)
  | "avg_daily_bank_bal" => some (PyVal.rat d.avg_daily_bank_bal)
  | "sales_rep" => some (PyVal.str d.sales_rep)
  | "sos_status" => some (PyVal.str d.sos_status)
  | "google_score" => some (PyVal.str d.google_score)
  | "twitter_score" => some (PyVal.str d.twitter_score)
  | "years_in_business" => some (PyVal.int d.years_in_business)
  | "extracted_at" => some (PyVal.odt d.extracted_at)
  | "last_updated" => some (PyVal.odt d.last_updated)
  | _ => none

/-- One entry of the backup payload the source tries to build (lines
712-719): the six keys of the backup dict. -/
structure BackupRec where
  deal_id : PyVal
  business_name : PyVal
  amount : PyVal
  status : PyVal
  deal_type : PyVal
  owner : PyVal
deriving DecidableEq, Repr

/-- Build one backup dict for a deal; attribute access order follows
the source.  An AttributeError (none) aborts the whole comprehension. -/
def backupEntry (d : Deal) : Option BackupRec := do
  let a ← d.getattr "deal_id"
  let b ← d.getattr "business_name"
  let c ← d.getattr "amount"
  let e ← d.getattr "status"
  let f ← d.getattr "deal_type"
  let g ← d.getattr "owner"
  pure ⟨a, b, c, e, f, g⟩

/-- The backup list comprehension over the validated deals. -/
def buildBackup (ds : List Deal) : Option (List BackupRec) :=
  ds.mapM backupEntry

/-- Result of one save_to_database call. -/
structure SaveResult where
  ops : List DbOp
  backupAttempted : Bool
  backupPayload : Option (List BackupRec)
  raised : Bool
deriving DecidableEq, Repr

/-- save_to_database: filter to valid deals and return early when none
remain; try the upsert keyed on deal_id; on an upsert exception try a
plain insert of the same rows once; a falsy insert result or an insert
exception reaches the outer handler, which attempts the local backup
file and re-raises. -/
def save_to_database (now : PyDateTime) (deals : List Deal) (b : Backend) :
    SaveResult :=
  let valid := deals.filter validate_deal_data
  if valid.isEmpty then ⟨[], false, none, false⟩
  else
    let rows := valid.map (dealToDict now)
    match b.upsert with
    | DbResult.ok _ => ⟨[DbOp.upsertOp rows], false, none, false⟩
    | DbResult.exn =>
      match b.insert with
      | DbResult.ok true =>
        ⟨[DbOp.upsertOp rows, DbOp.insertOp rows], false, none, false⟩
      | DbResult.ok false =>
        ⟨[DbOp.upsertOp rows, DbOp.insertOp rows], true, buildBackup valid, true⟩
      | DbResult.exn =>
        ⟨[DbOp.upsertOp rows, DbOp.insertOp rows], true, buildBackup valid, true⟩

/-- C4: the claim says that when both upsert and insert fail the full
validated record set, with all fields, is written to the timestamped
backup file.  The source instead builds backup dicts from six
attributes, two of which (business_name and amount) do not exist on
the Deal dataclass, so for any non-empty validated set the list
comprehension raises AttributeError before any record is serialized:
the backup payload is never produced, though the failure does
propagate.  The final conjunct evaluates the model at a concrete
failing input. -/
theorem backup_artifact_never_written :
    (∀ d : Deal, d.getattr "business_name" = none ∧ d.getattr "amount" = none) ∧
    (∀ d : Deal, backupEntry d = none) ∧
    (∀ (d : Deal) (ds : List Deal), buildBackup (d :: ds) = none) ∧
    save_to_database now0 [sampleDeal] ⟨DbResult.exn, DbResult.exn⟩ =
      { ops := [DbOp.upsertOp [dealToDict now0 sampleDeal],
                DbOp.insertOp [dealToDict now0 sampleDeal]],
        backupAttempted := true, backupPayload := none, raised := true } := by
  refine ⟨fun d => ⟨rfl, rfl⟩, fun d => rfl, fun d ds => rfl, by decide⟩

/-- C5: on a store-level upsert failure the gateway falls back exactly
once to a plain insert of the same row batch; the insert is attempted
only when the upsert has raised; and a successful insert (truthy
result data) completes the save with no backup and no exception. -/
theorem insert_fallback_policy (now : PyDateTime) (deals : List Deal)
    (b : Backend) :
    ((save_to_database now deals b).ops.filter DbOp.isInsert).length ≤ 1 ∧
    (∀ rows, DbOp.insertOp rows ∈ (save_to_database now deals b).ops →
      b.upsert = DbResult.exn) ∧
    (b.upsert = DbResult.exn → ¬(deals.filter validate_deal_data).isEmpty →
      (save_to_database now deals b).ops =
        [DbOp.upsertOp ((deals.filter validate_deal_data).map (dealToDict now)),
         DbOp.insertOp ((deals.filter validate_deal_data).map (dealToDict now))]) ∧
    (b.upsert = DbResult.exn → b.insert = DbResult.ok true →
      (save_to_database now deals b).raised = false ∧
      (save_to_database now deals b).backupAttempted = false) := by
  by_cases hemp : (deals.filter validate_deal_data).isEmpty
  · refine ⟨?_, ?_, ?_, ?_⟩ <;> simp [save_to_database, hemp]
  · cases hu : b.upsert with
    | ok hd =>
      refine ⟨?_, ?_, ?_, ?_⟩ <;>
        simp [save_to_database, hemp, hu, DbOp.isInsert]
    | exn =>
      cases hi : b.insert with
      | ok hd2 =>
        cases hd2 <;>
          (refine ⟨?_, ?_, ?_, ?_⟩ <;>
            simp [save_to_database, hemp, hu, hi, DbOp.isInsert])
      | exn =>
        refine ⟨?_, ?_, ?_, ?_⟩ <;>
          simp [save_to_database, hemp, hu, hi, DbOp.isInsert]

/-- C5 witness: the fallback policy applied to one valid deal with an
upsert that raises and an insert that succeeds. -/
theorem insert_fallback_policy_witness :
    ((save_to_database now0 [sampleDeal] ⟨DbResult.exn, DbResult.ok true⟩).ops.filter
        DbOp.isInsert).length ≤ 1 ∧
    (save_to_database now0 [sampleDeal] ⟨DbResult.exn, DbResult.ok true⟩).ops =
      [DbOp.upsertOp [dealToDict now0 sampleDeal],
       DbOp.insertOp [dealToDict now0 sampleDeal]] ∧
    (save_to_database now0 [sampleDeal] ⟨DbResult.exn, DbResult.ok true⟩).raised = false ∧
    (save_to_database now0 [sampleDeal] ⟨DbResult.exn, DbResult.ok true⟩).backupAttempted = false :=
  ⟨(insert_fallback_policy now0 [sampleDeal] ⟨DbResult.exn, DbResult.ok true⟩).1,
   (insert_fallback_policy now0 [sampleDeal] ⟨DbResult.exn, DbResult.ok true⟩).2.2.1
     rfl (by decide),
   (insert_fallback_policy now0 [sampleDeal] ⟨DbResult.exn, DbResult.ok true⟩).2.2.2
     rfl rfl⟩

/-! ## Configuration (ScrapingConfig, lines 33-43) -/

/-- ScrapingConfig dataclass with its source defaults. -/
structure ScrapingConfig where
  headless : Bool := true
  timeout : ℕ := 15
  max_retries : ℕ := 3
  retry_delay : ℕ := 2
  page_load_timeout : ℕ := 30
  implicit_wait : ℕ := 10
  screenshot_on_error : Bool := true
  save_html_on_error : Bool := true
deriving DecidableEq, Repr

/-! ## Authentication verification (lines 214-269)

verify_authentication navigates to the protected page; the navigation
outcome is Except: ok carries the current url and the page source, and
error is any driver exception.  The function is total: every path
returns a Bool, and the failure paths call save_debug_info, which
writes one markup file and one screenshot named by prefix, session id
and timestamp, each gated by its config flag. -/

/-- Python str.lower() restricted to the ASCII range the indicators
use. -/
def strLower (s : String) : String :=
  ⟨s.toList.map Char.toLower⟩

/-- The authentication indicators of line 226. -/
def authIndicators : List String :=
  ["dashboard", "portfolio", "cashadvance", "logout"]

/-- Line 227-230: some indicator occurs in the lowered url or in the
lowered page source. -/
def isAuthenticated (current_url page_source_lower : String) : Bool :=
  authIndicators.any fun ind =>
    containsSub (strLower current_url) ind || containsSub page_source_lower ind

/-- Debug files written by one save_debug_info call. -/
structure DebugCapture where
  htmlFiles : List String
  pngFiles : List String
deriving DecidableEq, Repr

/-- save_debug_info (lines 249-269): nothing when both flags are off,
else one html file and one png file, each gated by its flag and named
by the given tag, session id and timestamp. -/
def save_debug_info (cfg : ScrapingConfig) (session_id timestamp tag : String) :
    DebugCapture :=
  if ¬cfg.save_html_on_error ∧ ¬cfg.screenshot_on_error then ⟨[], []⟩
  else
    ⟨(if cfg.save_html_on_error then
        [tag ++ "_" ++ session_id ++ "_" ++ timestamp ++ ".html"] else []),
     (if cfg.screenshot_on_error then
        [tag ++ "_" ++ session_id ++ "_" ++ timestamp ++ ".png"] else [])⟩

/-- verify_authentication: true with no capture when an indicator
matches; false with an auth_failure capture when none does; false with
an auth_error capture when the driver raises.  Total, so it never
raises. -/
def verify_authentication (cfg : ScrapingConfig) (session_id timestamp : String)
    (nav : Except Unit (String × String)) : Bool × DebugCapture :=
  match nav with
  | Except.ok (current_url, page_source) =>
    if isAuthenticated current_url (strLower page_source) then
      (true, ⟨[], []⟩)
    else
      (false, save_debug_info cfg session_id timestamp "auth_failure")
  | Except.error _ =>
    (false, save_debug_info cfg session_id timestamp "auth_error")

/-- Observable outcome of one run_daily_extraction call. -/
structure RunOutcome where
  extraction_attempted : Bool
  raised : Bool
  debug : DebugCapture
deriving DecidableEq, Repr

/-- run_daily_extraction (lines 723-752): failed cookie loading or
failed verification raises before any extraction; rest_raises stands
for the outcome of the downstream steps on the success path. -/
def run_daily_extraction (cfg : ScrapingConfig) (session_id timestamp : String)
    (cookies_ok : Bool) (nav : Except Unit (String × String))
    (rest_raises : Bool) : RunOutcome :=
  if ¬cookies_ok then ⟨false, true, ⟨[], []⟩⟩
  else
    match verify_authentication cfg session_id timestamp nav with
    | (true, dbg) => ⟨true, rest_raises, dbg⟩
    | (false, dbg) => ⟨false, true, dbg⟩

/-- C6: when no indicator matches the lowered url or markup,
verification returns the failure value false (it is a total function,
so it never raises; the driver-exception path also returns false), the
failure path captures exactly one markup snapshot and one screenshot,
both tagged with the run (session) id and a timestamp, and the run
then raises without attempting extraction. -/
theorem auth_failure_evidence (cfg : ScrapingConfig)
    (sid ts current_url page_source : String) (rr : Bool)
    (hhtml : cfg.save_html_on_error = true)
    (hss : cfg.screenshot_on_error = true)
    (hauth : isAuthenticated current_url (strLower page_source) = false) :
    verify_authentication cfg sid ts (Except.ok (current_url, page_source)) =
      (false,
        ⟨["auth_failure" ++ "_" ++ sid ++ "_" ++ ts ++ ".html"],
         ["auth_failure" ++ "_" ++ sid ++ "_" ++ ts ++ ".png"]⟩) ∧
    (verify_authentication cfg sid ts (Except.error ())).1 = false ∧
    run_daily_extraction cfg sid ts true (Except.ok (current_url, page_source)) rr =
      ⟨false, true,
        ⟨["auth_failure" ++ "_" ++ sid ++ "_" ++ ts ++ ".html"],
         ["auth_failure" ++ "_" ++ sid ++ "_" ++ ts ++ ".png"]⟩⟩ := by
  have hdbg : save_debug_info cfg sid ts "auth_failure" =
      ⟨["auth_failure" ++ "_" ++ sid ++ "_" ++ ts ++ ".html"],
       ["auth_failure" ++ "_" ++ sid ++ "_" ++ ts ++ ".png"]⟩ := by
    simp [save_debug_info, hhtml, hss]
  refine ⟨?_, rfl, ?_⟩
  · simp [verify_authentication, hauth, hdbg]
  · simp [run_daily_extraction, verify_authentication, hauth, hdbg]

/-- C6 witness: the evidence theorem applied to a login page holding
no indicator, with the default configuration. -/
theorem auth_failure_evidence_witness :
    verify_authentication {} "20250101_000000" "20250101_000105"
        (Except.ok ("https://1workforce.com/n/login", "<html>please sign in</html>")) =
      (false,
        ⟨["auth_failure" ++ "_" ++ "20250101_000000" ++ "_" ++ "20250101_000105" ++ ".html"],
         ["auth_failure" ++ "_" ++ "20250101_000000" ++ "_" ++ "20250101_000105" ++ ".png"]⟩) ∧
    run_daily_extraction {} "20250101_000000" "20250101_000105" true
        (Except.ok ("https://1workforce.com/n/login", "<html>please sign in</html>")) false =
      ⟨false, true,
        ⟨["auth_failure" ++ "_" ++ "20250101_000000" ++ "_" ++ "20250101_000105" ++ ".html"],
         ["auth_failure" ++ "_" ++ "20250101_000000" ++ "_" ++ "20250101_000105" ++ ".png"]⟩⟩ :=
  have h := auth_failure_evidence {} "20250101_000000" "20250101_000105"
    "https://1workforce.com/n/login" "<html>please sign in</html>" false
    rfl rfl (by decide)
  ⟨h.1, h.2.2⟩

/-! ## Retry helper (retry_on_failure, lines 271-281) -/

instance {E A : Type} [DecidableEq E] [DecidableEq A] : DecidableEq (Except E A) :=
  fun x y =>
    match x, y with
    | Except.ok a, Except.ok b =>
      if h : a = b then isTrue (by rw [h])
      else isFalse (by intro hc; cases hc; exact h rfl)
    | Except.ok _, Except.error _ => isFalse (fun hc => Except.noConfusion hc)
    | Except.error _, Except.ok _ => isFalse (fun hc => Except.noConfusion hc)
    | Except.error e, Except.error f =>
      if h : e = f then isTrue (by rw [h])
      else isFalse (by intro hc; cases hc; exact h rfl)

/-- Outcome of one retry_on_failure call: the returned or raised
value (none only when max_retries is 0 and the loop body never runs),
the number of attempts made, and the sleeps taken between attempts. -/
structure RetryResult (E A : Type) where
  result : Option (Except E A)
  attempts : ℕ
  delays : List ℕ
deriving DecidableEq, Repr

/-- The retry loop over the remaining attempt indices: a success
returns at once; a failure on the last attempt re-raises; otherwise
the loop sleeps retry_delay * (attempt + 1) and continues. -/
def retryGo {E A : Type} (retry_delay : ℕ) (f : ℕ → Except E A) :
    List ℕ → RetryResult E A
  | [] => ⟨none, 0, []⟩
  | a :: rest =>
    match f a with
    | Except.ok v => ⟨some (Except.ok v), 1, []⟩
    | Except.error e =>
      match rest with
      | [] => ⟨some (Except.error e), 1, []⟩
      | _ :: _ =>
        let r := retryGo retry_delay f rest
        ⟨r.result, r.attempts + 1, retry_delay * (a + 1) :: r.delays⟩

/-- retry_on_failure: run the loop for attempt in range(max_retries),
where f gives each attempt's outcome. -/
def retry_on_failure {E A : Type} (max_retries retry_delay : ℕ)
    (f : ℕ → Except E A) : RetryResult E A :=
  retryGo retry_delay f (List.range max_retries)

/-- C8: the claim (and the comment on line 279 of the source) says the
delay between attempts grows exponentially.  The implementation sleeps
retry_delay * (attempt + 1), which is linear: with max_retries 4 and
retry_delay 2 an always-failing operation sleeps 2, 4, 6 seconds, and
4 * 4 = 16 is not 2 * 6 = 12, so the delays are not geometric.  The
bounded-attempts, first-success and final-raise parts of the claim do
hold and are evaluated here as well. -/
theorem retry_backoff_is_linear_not_exponential :
    (retry_on_failure 4 2 (fun _ => (Except.error "boom" : Except String ℕ))).delays
        = [2, 4, 6] ∧
    ((retry_on_failure 4 2 (fun _ => (Except.error "boom" : Except String ℕ))).delays.getD 1 0) *
        ((retry_on_failure 4 2 (fun _ => (Except.error "boom" : Except String ℕ))).delays.getD 1 0) ≠
      ((retry_on_failure 4 2 (fun _ => (Except.error "boom" : Except String ℕ))).delays.getD 0 0) *
        ((retry_on_failure 4 2 (fun _ => (Except.error "boom" : Except String ℕ))).delays.getD 2 0) ∧
    (retry_on_failure 4 2 (fun _ => (Except.error "boom" : Except String ℕ))).attempts = 4 ∧
    (retry_on_failure 4 2 (fun _ => (Except.error "boom" : Except String ℕ))).result
        = some (Except.error "boom") ∧
    (retry_on_failure 3 2 (fun i => if i = 1 then Except.ok 42 else
        (Except.error "x" : Except String ℕ))).result = some (Except.ok 42) ∧
    (retry_on_failure 3 2 (fun i => if i = 1 then Except.ok 42 else
        (Except.error "x" : Except String ℕ))).attempts = 2 := by
  refine ⟨?_, ?_, ?_, ?_, ?_, ?_⟩ <;> decide

/-! ## Browser driver lifecycle (driver_context, lines 101-113)

The context manager is embedded as a function of the four events that
determine its control flow: whether the Chrome construction succeeds
(only then is self.driver assigned), whether the rest of setup_driver
succeeds, whether the body of the with-block raises, and whether quit
itself raises (its exception is swallowed by the inner handler). -/

/-- Observable trace of one driver_context use. -/
structure CtxTrace where
  driver_created : Bool
  quit_invoked : Bool
  quit_error_swallowed : Bool
  raised : Bool
deriving DecidableEq, Repr

/-- driver_context: setup inside try, yield, and a finally block that
quits whenever self.driver is set, swallowing quit errors. -/
def driver_context (chrome_ok post_setup_ok body_ok quit_ok : Bool) : CtxTrace :=
  if ¬chrome_ok then ⟨false, false, false, true⟩
  else if ¬post_setup_ok then ⟨true, true, ¬quit_ok, true⟩
  else ⟨true, true, ¬quit_ok, ¬body_ok⟩

/-- C9: a driver is created exactly when the Chrome construction
succeeds, and whenever it was created, quit is invoked before the
context is left, on every exit path: normal completion, an exception
in setup after the assignment, an exception in the body, and even a
failing quit (whose error is swallowed). -/
theorem driver_context_guaranteed_release :
    ∀ chrome_ok post_setup_ok body_ok quit_ok : Bool,
      (driver_context chrome_ok post_setup_ok body_ok quit_ok).driver_created
          = chrome_ok ∧
      ((driver_context chrome_ok post_setup_ok body_ok quit_ok).driver_created
          = true →
        (driver_context chrome_ok post_setup_ok body_ok quit_ok).quit_invoked
          = true) ∧
      (driver_context true true true quit_ok).raised = false := by
  decide

/-- C9 witness: the release theorem applied at a run whose body raises. -/
theorem driver_context_guaranteed_release_witness :
    (driver_context true true false true).quit_invoked = true :=
  (driver_context_guaranteed_release true true false true).2.1 rfl

/-! ## Pagination controller (claim C7)

Modelled from the spec: no total_pages operation exists under
src/ - extract_deals_data only logs the paginator summary text
(lines 349-353) - so the Pagination Controller contract of spec
section 4.4 is embedded from its words: find a fragment of the form
open-paren a dash b of N close-paren, extract N, return the ceiling of
N divided by the page size, and 1 when no summary parses. -/

/-- Parse a leading decimal number. -/
def parseNatPart (l : List Char) : Option (ℕ × List Char) :=
  let ds := l.takeWhile Char.isDigit
  if ds = [] then none else some (decDigitsVal ds, l.dropWhile Char.isDigit)

/-- Modelled from the spec: the summary body after an opening
parenthesis, of the form a dash b of N followed by the closing
parenthesis; returns N. -/
def parseSummaryAfterParen (l : List Char) : Option ℕ := do
  let l1 := l.dropWhile (· = ' ')
  let (_, l2) ← parseNatPart l1
  let l3 := l2.dropWhile (· = ' ')
  match l3 with
  | '-' :: l4 =>
    let l5 := l4.dropWhile (· = ' ')
    match parseNatPart l5 with
    | none => none
    | some (_, l6) =>
      let l7 := l6.dropWhile (· = ' ')
      match l7 with
      | 'o' :: 'f' :: l8 =>
        let l9 := l8.dropWhile (· = ' ')
        match parseNatPart l9 with
        | none => none
        | some (n, l10) =>
          let l11 := l10.dropWhile (· = ' ')
          match l11 with
          | ')' :: _ => some n
          | _ => none
      | _ => none
  | _ => none

/-- Modelled from the spec: scan the summary text for the first
parenthesised fragment that parses. -/
def extractTotal? : List Char → Option ℕ
  | [] => none
  | '(' :: rest =>
    match parseSummaryAfterParen rest with
    | some n => some n
    | none => extractTotal? rest
  | _ :: rest => extractTotal? rest

/-- Modelled from the spec: total_pages of the Pagination Controller,
the ceiling of N over the page size, conservatively 1 when no summary
is found or none parses. -/
def total_pages (summary : Option String) (pageSize : ℕ) : ℕ :=
  match summary with
  | none => 1
  | some s =>
    match extractTotal? s.toList with
    | none => 1
    | some n => (n + pageSize - 1) / pageSize

/-- C7: total_pages returns 1 on the single-page summary with page
size 53, 3 on the 107-total summary, and 1 on a missing or malformed
summary; and whenever a summary yields total n and the page size is
positive, the result is the ceiling of n over the page size
(characterised by its two defining inequalities). -/
theorem total_pages_spec :
    total_pages (some "(1 - 53 of 53)") 53 = 1 ∧
    total_pages (some "(1 - 53 of 107)") 53 = 3 ∧
    total_pages none 53 = 1 ∧
    total_pages (some "no summary here") 53 = 1 ∧
    (∀ (s : String) (n ps : ℕ), extractTotal? s.toList = some n → 0 < ps →
      n ≤ ps * total_pages (some s) ps ∧
      ps * total_pages (some s) ps < n + ps) := by
  refine ⟨by decide, by decide, rfl, by decide, ?_⟩
  intro s n ps hext hps
  simp only [total_pages, hext]
  have hdm := Nat.div_add_mod (n + ps - 1) ps
  have hm : (n + ps - 1) % ps < ps := Nat.mod_lt _ hps
  generalize hr : (n + ps - 1) % ps = r at hdm hm
  generalize hX : ps * ((n + ps - 1) / ps) = X at hdm ⊢
  omega

/-- C7 witness: the characterisation applied to the 107-total summary
at page size 53. -/
theorem total_pages_spec_witness :
    (107 : ℕ) ≤ 53 * total_pages (some "(1 - 53 of 107)") 53 ∧
    53 * total_pages (some "(1 - 53 of 107)") 53 < 107 + 53 :=
  total_pages_spec.2.2.2.2 "(1 - 53 of 107)" 107 53 (by decide) (by decide)

/-! ## Claim C2 and C3 theorems -/

/-- C2 counterexample: the claim says every extracted monetary field
strips all characters except digits and the decimal point, so that
"$400,000.00" parses to 400000.00.  In the source only commas are
removed (replace(",", "")); the dollar sign survives, float raises
ValueError, and the field keeps its 0.0 default in both monetary parse
paths.  Also the claimed "1,234 (1.30)" to 1234.0 behaviour fails for
the plain fields, which do not truncate at the parenthesis. -/
theorem parse_money_not_stripped_counterexample :
    parseMoneyPlain "$400,000.00" ≠ 400000 ∧
    parseMoneyParen "$400,000.00" ≠ 400000 ∧
    parseMoneyPlain "1,234 (1.30)" ≠ 1234 := by
  refine ⟨?_, ?_, ?_⟩ <;> decide

/-- C2 amended: monetary parsing strips the value and deletes commas
(the receivables and balance fields first truncate at the first
opening parenthesis), then attempts a float conversion; on an empty or
unconvertible result the field keeps its 0.0 default, and the
ValueError is caught so nothing is raised.  Hence "400,000.00" parses
to 400000.00, "1,234 (1.30)" parses to 1234.0 in the truncating fields
and to 0.0 in the plain fields, "$400,000.00" parses to 0.0 in every
field (the dollar sign is not stripped), and "" parses to 0.0. -/
theorem parse_money_amended :
    parseMoneyPlain "400,000.00" = 400000 ∧
    parseMoneyParen "400,000.00" = 400000 ∧
    parseMoneyParen "1,234 (1.30)" = 1234 ∧
    parseMoneyPlain "1,234 (1.30)" = 0 ∧
    parseMoneyPlain "$400,000.00" = 0 ∧
    parseMoneyParen "$400,000.00" = 0 ∧
    parseMoneyPlain "" = 0 ∧
    parseMoneyParen "" = 0 := by
  refine ⟨?_, ?_, ?_, ?_, ?_, ?_, ?_, ?_⟩ <;> decide

/-- C3 counterexample: the claim says a record is rejected exactly when
its id is empty or neither principal field is positive.  The source
additionally rejects on an empty dba: this record has a non-empty id
and a positive purchase price yet validate_deal_data returns false. -/
theorem validate_rejects_empty_dba_counterexample :
    validate_deal_data
      { deal_id := "MCA_1", dba := "", owner := some "", deal_type := "MCA",
        funding_type := "", purchase_price := 500 } = false ∧
    ("MCA_1" : String) ≠ "" ∧ (0 : ℚ) < 500 := by
  refine ⟨?_, ?_, ?_⟩ <;> decide

/-- C3 amended: validation rejects a record exactly when its id is
empty, its dba is empty, or neither recognized principal-amount field
is positive.  With a non-empty dba the claimed examples hold: an empty
id is always rejected, MCA_1 with both principal fields 0.0 is
rejected, and LOAN_2 with principal_amount 500.0 is accepted. -/
theorem validate_deal_data_amended :
    (∀ d : Deal, validate_deal_data d = false ↔
      (d.deal_id = "" ∨ d.dba = "" ∨
        (d.purchase_price ≤ 0 ∧ d.principal_amount ≤ 0))) ∧
    validate_deal_data
      { deal_id := "", dba := "Acme", owner := some "O", deal_type := "MCA",
        funding_type := "", purchase_price := 500 } = false ∧
    validate_deal_data
      { deal_id := "MCA_1", dba := "Acme", owner := some "O", deal_type := "MCA",
        funding_type := "", purchase_price := 0, principal_amount := 0 } = false ∧
    validate_deal_data
      { deal_id := "LOAN_2", dba := "Acme", owner := some "O", deal_type := "LOAN",
        funding_type := "", principal_amount := 500 } = true := by
  refine ⟨?_, ?_, ?_, ?_⟩
  · intro d
    unfold validate_deal_data
    split_ifs with h1 h2
    · simp only [eq_self_iff_true, true_iff]
      tauto
    · simp only [eq_self_iff_true, true_iff]
      tauto
    · push_neg at h1 h2
      simp only [Bool.true_eq_false, false_iff]
      push_neg
      exact ⟨h1.1, h1.2, h2⟩
  · decide
  · decide
  · decide

/-- C3 witness: the amended characterisation applied to the accepted
LOAN_2 example record. -/
theorem validate_deal_data_amended_witness :
    validate_deal_data
        { deal_id := "LOAN_2", dba := "Acme", owner := some "O",
          deal_type := "LOAN", funding_type := "", principal_amount := 500 } = false ↔
      (({ deal_id := "LOAN_2", dba := "Acme", owner := some "O",
          deal_type := "LOAN", funding_type := "",
          principal_amount := 500 } : Deal).deal_id = "" ∨
       ({ deal_id := "LOAN_2", dba := "Acme", owner := some "O",
          deal_type := "LOAN", funding_type := "",
          principal_amount := 500 } : Deal).dba = "" ∨
       (({ deal_id := "LOAN_2", dba := "Acme", owner := some "O",
           deal_type := "LOAN", funding_type := "",
           principal_amount := 500 } : Deal).purchase_price ≤ 0 ∧
        ({ deal_id := "LOAN_2", dba := "Acme", owner := some "O",
           deal_type := "LOAN", funding_type := "",
           principal_amount := 500 } : Deal).principal_amount ≤ 0)) :=
  validate_deal_data_amended.1
    { deal_id := "LOAN_2", dba := "Acme", owner := some "O",
      deal_type := "LOAN", funding_type := "", principal_amount := 500 }
